import Mathlib

/-!
Shallow embedding of the elevator dispatch-and-scheduling core of
`src/ElevatorSystem/elevator_system.py`.

Modelling conventions:
- Python `int` becomes `Int`.
- The zone thresholds `total_floors * 0.75` and `total_floors * 0.25` are
  Python floats; since 0.75 and 0.25 are exact binary fractions, the
  comparisons `floor > total_floors * 0.75` and
  `floor <= total_floors * 0.25` are exactly the rational comparisons
  `4 * floor > 3 * total_floors` and `4 * floor <= total_floors` whenever
  `|3 * total_floors|` fits in a double's 53-bit mantissa (all realistic
  building sizes), so we embed them as such.
- Python default arguments are applied explicitly at each call site
  (`zoneMatches` is always invoked by the schedulers with its defaults
  `total_floors = 200`, `strategy = "TOP_MIDDLE_BOTTOM"`).
- Object mutation becomes functional record update; the dispatcher's
  in-place mutation of the car chosen by the scheduler is modelled by
  replacing the first occurrence of that car value in the fleet list,
  which coincides with Python's aliasing because cars with equal field
  values are interchangeable for every scheduler (same eligibility, same
  distance key, and both Python `min`/first-match and `List.replace`
  pick the earliest).
- Fields of `ElevatorCar` never read by any code path under scrutiny
  (`max_load`, `max_speed : float`, `capacity`, the unused `requests`
  accumulator) are omitted from the record.
- `print` calls are side-effect free for the state and are dropped.
-/

/-- `ElevatorState` enum of the source: `UP`, `DOWN`, `IDLE`. -/
inductive ElevatorState where
  | UP : ElevatorState
  | DOWN : ElevatorState
  | IDLE : ElevatorState
deriving DecidableEq, Repr

/-- `getZoneForFloor(floor, total_floors = 200, strategy = "TOP_MIDDLE_BOTTOM")`,
lines 14-25 of the source. The spec calls the `"TOP_MIDDLE_BOTTOM"` strategy
`PERCENTILE` and the `"ODD_EVEN"` strategy `PARITY`. Python `floor % 2` on an
`int` is a nonnegative remainder, matching `Int.emod` for the positive
modulus 2. -/
def getZoneForFloor (floor : Int) (total_floors : Int) (strategy : String) : String :=
  if strategy = "TOP_MIDDLE_BOTTOM" then
    if 4 * floor > 3 * total_floors then "TOP"
    else if 4 * floor ≤ total_floors then "BOTTOM"
    else "MIDDLE"
  else if strategy = "ODD_EVEN" then
    if floor % 2 = 1 then "ODD" else "EVEN"
  else "DEFAULT"

/-- `Door`, lines 29-39: just the `is_open` flag. -/
structure Door where
  is_open : Bool
deriving DecidableEq, Repr

/-- `Door.open` (the source method name `open` is a Lean keyword). -/
def Door.openDoor (_ : Door) : Door := { is_open := true }

/-- `Door.close`. -/
def Door.closeDoor (_ : Door) : Door := { is_open := false }

/-- `ElevatorCar`, lines 62-93, keeping the fields the scheduling core
reads or writes: `id`, `current_floor`, `state`, `door`, `zone`. -/
structure ElevatorCar where
  id : Int
  current_floor : Int
  state : ElevatorState
  door : Door
  zone : String
deriving DecidableEq, Repr

/-- `ElevatorCar.__init__`: floor 0, IDLE, door closed, assigned zone. -/
def ElevatorCar.init (id : Int) (zone : String) : ElevatorCar :=
  { id := id, current_floor := 0, state := ElevatorState.IDLE,
    door := { is_open := false }, zone := zone }

/-- `ElevatorCar.openDoor`, lines 81-82. -/
def ElevatorCar.openDoor (e : ElevatorCar) : ElevatorCar :=
  { e with door := e.door.openDoor }

/-- `ElevatorCar.closeDoor`, lines 84-85. -/
def ElevatorCar.closeDoor (e : ElevatorCar) : ElevatorCar :=
  { e with door := e.door.closeDoor }

/-- The transient motion state assigned at line 76 of `moveTo`:
`ElevatorState.UP if floor > self.current_floor else ElevatorState.DOWN`.
Named so the intermediate state the car passes through is observable. -/
def ElevatorCar.transientState (e : ElevatorCar) (floor : Int) : ElevatorState :=
  if floor > e.current_floor then ElevatorState.UP else ElevatorState.DOWN

/-- `ElevatorCar.moveTo`, lines 74-79, statement by statement:
set the transient motion state, jump to the floor, return to IDLE,
open the door. -/
def ElevatorCar.moveTo (e : ElevatorCar) (floor : Int) : ElevatorCar :=
  let e1 := { e with state := e.transientState floor }
  let e2 := { e1 with current_floor := floor }
  let e3 := { e2 with state := ElevatorState.IDLE }
  e3.openDoor

/-- `ElevatorCar.emergencyStop`, lines 87-89: unconditionally IDLE. -/
def ElevatorCar.emergencyStop (e : ElevatorCar) : ElevatorCar :=
  { e with state := ElevatorState.IDLE }

/-- `ElevatorCar.zoneMatches`, lines 91-93. -/
def ElevatorCar.zoneMatches (e : ElevatorCar) (floor : Int)
    (total_floors : Int) (strategy : String) : Bool :=
  e.zone == getZoneForFloor floor total_floors strategy

/-- `Request`, lines 97-100. -/
structure Request where
  floor : Int
  direction : ElevatorState
deriving DecidableEq, Repr

/-- Python's builtin `min(list, key = k)`: the first element attaining the
minimal key (a later element replaces the current best only when its key is
strictly smaller). -/
def pythonMin (key : α → Nat) : List α → Option α
  | [] => none
  | x :: xs =>
    match pythonMin key xs with
    | none => some x
    | some y => if key y < key x then some y else some x

/-- `FCFSAlgorithm.schedule`, lines 108-113: first car that is IDLE and
zone-eligible (with `zoneMatches` applied at its Python defaults). -/
def fcfsSchedule (request : Request) (elevators : List ElevatorCar) : Option ElevatorCar :=
  elevators.find? fun e =>
    e.state == ElevatorState.IDLE && e.zoneMatches request.floor 200 "TOP_MIDDLE_BOTTOM"

/-- The SSTF eligibility filter of line 119. -/
def sstfEligible (request : Request) (e : ElevatorCar) : Bool :=
  e.state == ElevatorState.IDLE && e.zoneMatches request.floor 200 "TOP_MIDDLE_BOTTOM"

/-- `SSTFAlgorithm.schedule`, lines 117-122: among IDLE zone-eligible cars,
the one with minimal `abs(e.current_floor - request.floor)`. -/
def sstfSchedule (request : Request) (elevators : List ElevatorCar) : Option ElevatorCar :=
  let eligible_elevators := elevators.filter (sstfEligible request)
  if eligible_elevators.isEmpty then none
  else pythonMin (fun e => (e.current_floor - request.floor).natAbs) eligible_elevators

/-- The SCAN eligibility test of lines 130-134. -/
def scanEligible (request : Request) (e : ElevatorCar) : Bool :=
  e.zoneMatches request.floor 200 "TOP_MIDDLE_BOTTOM" &&
    (e.state == ElevatorState.IDLE ||
      (e.state == request.direction &&
        ((request.direction == ElevatorState.UP && e.current_floor ≤ request.floor) ||
         (request.direction == ElevatorState.DOWN && e.current_floor ≥ request.floor))))

/-- `SCANAlgorithm.schedule`, lines 126-138. -/
def scanSchedule (request : Request) (elevators : List ElevatorCar) : Option ElevatorCar :=
  let eligible_elevators := elevators.filter (scanEligible request)
  if eligible_elevators.isEmpty then none
  else pythonMin (fun e => (e.current_floor - request.floor).natAbs) eligible_elevators

/-- The body of `Dispatcher.dispatch`, lines 153-163, as a function of the
scheduling algorithm, the fleet and the queue; returns the fleet and queue
after the drain round. Pops the head; on a match the chosen car (located in
the fleet by `List.replace`, see the header note on aliasing) executes
`moveTo` and the loop continues; on no match the popped request is appended
to the tail and the loop breaks. -/
def dispatchLoop (alg : Request → List ElevatorCar → Option ElevatorCar) :
    List ElevatorCar → List Request → List ElevatorCar × List Request
  | elevators, [] => (elevators, [])
  | elevators, request :: rest =>
    match alg request elevators with
    | some elevator =>
        dispatchLoop alg (elevators.replace elevator (elevator.moveTo request.floor)) rest
    | none => (elevators, rest ++ [request])

/-- The same drain loop with an explicit iteration budget, modelling the
unbounded `while self.request_queue:` of the source; `none` means the budget
was exhausted before the loop exited. Used to state termination. -/
def dispatchFuel (alg : Request → List ElevatorCar → Option ElevatorCar) :
    Nat → List ElevatorCar → List Request → Option (List ElevatorCar × List Request)
  | 0, _, _ => none
  | _ + 1, elevators, [] => some (elevators, [])
  | fuel + 1, elevators, request :: rest =>
    match alg request elevators with
    | some elevator =>
        dispatchFuel alg fuel (elevators.replace elevator (elevator.moveTo request.floor)) rest
    | none => some (elevators, rest ++ [request])

/-- `ElevatorSystem.emergencyAlarm`, lines 194-197: stop every car whose id
matches (mutation in a `for` loop becomes a map). -/
def emergencyAlarm (elevators : List ElevatorCar) (elevator_id : Int) : List ElevatorCar :=
  elevators.map fun e => if e.id == elevator_id then e.emergencyStop else e

/-! ### Concrete fixtures used to instantiate the spec's scenarios

Cars at nonzero floors stand for cars that have already relocated; under the
default zoning (`total_floors = 200`), `BOTTOM` is floors ≤ 50, `MIDDLE` is
51..150 and `TOP` is above 150. -/

/-- An idle BOTTOM-zone car fresh from the constructor (floor 0). -/
def carW : ElevatorCar := ElevatorCar.init 0 "BOTTOM"

/-- A request for floor 10 going UP (floor 10 is BOTTOM under the defaults). -/
def reqW : Request := { floor := 10, direction := ElevatorState.UP }

/-- A car currently moving UP (for the emergency-stop scenario). -/
def carUpC9 : ElevatorCar :=
  { id := 5, current_floor := 4, state := ElevatorState.UP,
    door := { is_open := false }, zone := "BOTTOM" }

/-- The spec's SSTF example cars: idle eligible cars at floors 3, 7 and 12. -/
def car379a : ElevatorCar :=
  { id := 0, current_floor := 3, state := ElevatorState.IDLE,
    door := { is_open := false }, zone := "BOTTOM" }

def car379b : ElevatorCar :=
  { id := 1, current_floor := 7, state := ElevatorState.IDLE,
    door := { is_open := false }, zone := "BOTTOM" }

def car379c : ElevatorCar :=
  { id := 2, current_floor := 12, state := ElevatorState.IDLE,
    door := { is_open := false }, zone := "BOTTOM" }

/-- The spec's SSTF example fleet. -/
def fleet379 : List ElevatorCar := [car379a, car379b, car379c]

/-- The spec's SSTF example request: floor 9 (BOTTOM under the defaults). -/
def req379 : Request := { floor := 9, direction := ElevatorState.UP }

/-- A BOTTOM-zone car moving UP at floor 5 (the spec's SCAN example). -/
def carScanW : ElevatorCar :=
  { id := 4, current_floor := 5, state := ElevatorState.UP,
    door := { is_open := false }, zone := "BOTTOM" }

/-- Request floor 8 going UP: `carScanW` has not yet passed floor 8. -/
def reqScanW : Request := { floor := 8, direction := ElevatorState.UP }

/-- The four cars of the spec's end-to-end scenario: zones
[BOTTOM, BOTTOM, MIDDLE, TOP] at floors [1, 1, 50, 90], all idle. -/
def carB0 : ElevatorCar :=
  { id := 0, current_floor := 1, state := ElevatorState.IDLE,
    door := { is_open := false }, zone := "BOTTOM" }

def carB1 : ElevatorCar :=
  { id := 1, current_floor := 1, state := ElevatorState.IDLE,
    door := { is_open := false }, zone := "BOTTOM" }

def carM2 : ElevatorCar :=
  { id := 2, current_floor := 50, state := ElevatorState.IDLE,
    door := { is_open := false }, zone := "MIDDLE" }

def carT3 : ElevatorCar :=
  { id := 3, current_floor := 90, state := ElevatorState.IDLE,
    door := { is_open := false }, zone := "TOP" }

/-- The end-to-end scenario fleet (the building has 100 floors, but the
building size never reaches the schedulers: `zoneMatches` is called with its
hard-coded default `total_floors = 200`). -/
def fleet100 : List ElevatorCar := [carB0, carB1, carM2, carT3]

/-- The end-to-end scenario request: floor 95 going UP. -/
def req95 : Request := { floor := 95, direction := ElevatorState.UP }

/-- A lone idle BOTTOM-zone car for the head-of-line blocking scenario. -/
def carC4 : ElevatorCar :=
  { id := 7, current_floor := 1, state := ElevatorState.IDLE,
    door := { is_open := false }, zone := "BOTTOM" }

/-- R1: floor 190 is TOP under the defaults — no TOP car is live. -/
def r1C4 : Request := { floor := 190, direction := ElevatorState.UP }

/-- R2: floor 10 is BOTTOM under the defaults — `carC4` is idle and eligible. -/
def r2C4 : Request := { floor := 10, direction := ElevatorState.UP }

/-- Two distinct requests dispatched against an empty fleet (queue-order
scenario). -/
def raC3 : Request := { floor := 1, direction := ElevatorState.UP }

def rbC3 : Request := { floor := 2, direction := ElevatorState.UP }

/-! ### Helper lemmas about `pythonMin` and the filter-then-min scheduler shape -/

theorem pythonMin_eq_none (key : α → Nat) (l : List α) :
    pythonMin key l = none ↔ l = [] := by
  cases l with
  | nil => simp [pythonMin]
  | cons x xs =>
    rw [pythonMin]
    cases hxs : pythonMin key xs with
    | none => simp
    | some y =>
      split <;> simp
      split <;> simp

theorem pythonMin_spec (key : α → Nat) :
    ∀ (l : List α) (c : α), pythonMin key l = some c →
      ∃ l1 l2, l = l1 ++ c :: l2 ∧ (∀ x ∈ l1, key c < key x) ∧ (∀ x ∈ l2, key c ≤ key x)
  | [], c, h => by simp [pythonMin] at h
  | x :: xs, c, h => by
    rw [pythonMin] at h
    cases hxs : pythonMin key xs with
    | none =>
      rw [hxs] at h
      cases h
      have hnil : xs = [] := (pythonMin_eq_none key xs).mp hxs
      subst hnil
      exact ⟨[], [], rfl, by simp, by simp⟩
    | some y =>
      simp only [hxs] at h
      obtain ⟨l1, l2, hsplit, hlt, hle⟩ := pythonMin_spec key xs y hxs
      by_cases hk : key y < key x
      · rw [if_pos hk] at h
        cases h
        refine ⟨x :: l1, l2, by simp [hsplit], ?_, hle⟩
        intro z hz
        rcases List.mem_cons.mp hz with hz | hz
        · exact hz ▸ hk
        · exact hlt z hz
      · rw [if_neg hk] at h
        injection h with hxc
        subst hxc
        have hxy : key x ≤ key y := Nat.le_of_not_lt hk
        refine ⟨[], xs, rfl, by simp, ?_⟩
        intro z hz
        rw [hsplit] at hz
        rcases List.mem_append.mp hz with hz | hz
        · exact Nat.le_of_lt (Nat.lt_of_le_of_lt hxy (hlt z hz))
        · rcases List.mem_cons.mp hz with hz | hz
          · exact hz ▸ hxy
          · exact Nat.le_trans hxy (hle z hz)

theorem filterMin_eq_none (p : α → Bool) (key : α → Nat) (l : List α) :
    (if (l.filter p).isEmpty then none else pythonMin key (l.filter p)) = none ↔
      ∀ x ∈ l, ¬ p x = true := by
  constructor
  · intro h x hx hp
    by_cases he : (l.filter p).isEmpty
    · rw [List.isEmpty_iff] at he
      have : x ∈ l.filter p := List.mem_filter.mpr ⟨hx, hp⟩
      rw [he] at this
      cases this
    · rw [if_neg he] at h
      rw [pythonMin_eq_none] at h
      rw [← List.isEmpty_iff] at h
      exact he h
  · intro h
    have he : l.filter p = [] := List.filter_eq_nil_iff.mpr h
    rw [he]
    simp

theorem filterMin_eq_some (p : α → Bool) (key : α → Nat) (l : List α) (c : α)
    (h : (if (l.filter p).isEmpty then none else pythonMin key (l.filter p)) = some c) :
    c ∈ l ∧ p c = true ∧ (∀ x ∈ l, p x = true → key c ≤ key x) ∧
      ∃ l1 l2, l.filter p = l1 ++ c :: l2 ∧ ∀ x ∈ l1, key c < key x := by
  by_cases he : (l.filter p).isEmpty
  · rw [if_pos he] at h
    cases h
  · rw [if_neg he] at h
    obtain ⟨l1, l2, hsplit, hlt, hle⟩ := pythonMin_spec key (l.filter p) c h
    have hmemf : c ∈ l.filter p := by rw [hsplit]; exact List.mem_append_right l1 (List.mem_cons_self c l2)
    obtain ⟨hmem, hp⟩ := List.mem_filter.mp hmemf
    refine ⟨hmem, hp, ?_, l1, l2, hsplit, hlt⟩
    intro x hx hpx
    have hxf : x ∈ l.filter p := List.mem_filter.mpr ⟨hx, hpx⟩
    rw [hsplit] at hxf
    rcases List.mem_append.mp hxf with hx1 | hx2
    · exact Nat.le_of_lt (hlt x hx1)
    · rcases List.mem_cons.mp hx2 with hx2 | hx2
      · exact hx2 ▸ Nat.le_refl _
      · exact hle x hx2

theorem zoneMatches_eq (e : ElevatorCar) (floor total_floors : Int) (strategy : String) :
    e.zoneMatches floor total_floors strategy = true ↔
      e.zone = getZoneForFloor floor total_floors strategy := by
  simp [ElevatorCar.zoneMatches]

theorem sstfEligible_iff (request : Request) (e : ElevatorCar) :
    sstfEligible request e = true ↔
      e.state = ElevatorState.IDLE ∧
        e.zoneMatches request.floor 200 "TOP_MIDDLE_BOTTOM" = true := by
  simp [sstfEligible]

theorem scanEligible_iff (request : Request) (e : ElevatorCar) :
    scanEligible request e = true ↔
      e.zoneMatches request.floor 200 "TOP_MIDDLE_BOTTOM" = true ∧
        (e.state = ElevatorState.IDLE ∨
          (e.state = request.direction ∧
            ((request.direction = ElevatorState.UP ∧ e.current_floor ≤ request.floor) ∨
             (request.direction = ElevatorState.DOWN ∧ request.floor ≤ e.current_floor)))) := by
  simp [scanEligible, ge_iff_le]

theorem sstfSchedule_eq (request : Request) (fleet : List ElevatorCar) :
    sstfSchedule request fleet =
      if (fleet.filter (sstfEligible request)).isEmpty then none
      else pythonMin (fun e => (e.current_floor - request.floor).natAbs)
        (fleet.filter (sstfEligible request)) := rfl

theorem scanSchedule_eq (request : Request) (fleet : List ElevatorCar) :
    scanSchedule request fleet =
      if (fleet.filter (scanEligible request)).isEmpty then none
      else pythonMin (fun e => (e.current_floor - request.floor).natAbs)
        (fleet.filter (scanEligible request)) := rfl

/-! ### Claim theorems -/

/-- Claim C1: for every request and fleet, the car returned (if any) by
FCFS, SSTF or SCAN scheduling has a zone equal to the zone classification
of the request's floor (as the code computes it, i.e. `getZoneForFloor`
at the hard-coded defaults `total_floors = 200`,
`strategy = "TOP_MIDDLE_BOTTOM"`). Contrapositively, a car whose zone
differs from the request floor's zone is never selected. -/
theorem claim_C1_zone_invariant (request : Request) (fleet : List ElevatorCar) (c : ElevatorCar) :
    (fcfsSchedule request fleet = some c →
      c.zone = getZoneForFloor request.floor 200 "TOP_MIDDLE_BOTTOM") ∧
    (sstfSchedule request fleet = some c →
      c.zone = getZoneForFloor request.floor 200 "TOP_MIDDLE_BOTTOM") ∧
    (scanSchedule request fleet = some c →
      c.zone = getZoneForFloor request.floor 200 "TOP_MIDDLE_BOTTOM") := by
  refine ⟨?_, ?_, ?_⟩
  · intro h
    have hp := List.find?_some h
    have hb := (Bool.and_eq_true _ _).mp hp
    exact (zoneMatches_eq c request.floor 200 "TOP_MIDDLE_BOTTOM").mp hb.2
  · intro h
    rw [sstfSchedule_eq] at h
    have hs := filterMin_eq_some (sstfEligible request)
      (fun e => (e.current_floor - request.floor).natAbs) fleet c h
    have hp := (sstfEligible_iff request c).mp hs.2.1
    exact (zoneMatches_eq c request.floor 200 "TOP_MIDDLE_BOTTOM").mp hp.2
  · intro h
    rw [scanSchedule_eq] at h
    have hs := filterMin_eq_some (scanEligible request)
      (fun e => (e.current_floor - request.floor).natAbs) fleet c h
    have hp := (scanEligible_iff request c).mp hs.2.1
    exact (zoneMatches_eq c request.floor 200 "TOP_MIDDLE_BOTTOM").mp hp.1

/-- Witness for C1: in a one-car fleet (idle BOTTOM-zone car) each of the
three schedulers picks that car for a floor-10 UP request, and its zone
equals the request floor's zone. -/
theorem claim_C1_zone_invariant_witness :
    carW.zone = getZoneForFloor reqW.floor 200 "TOP_MIDDLE_BOTTOM" ∧
    carW.zone = getZoneForFloor reqW.floor 200 "TOP_MIDDLE_BOTTOM" ∧
    carW.zone = getZoneForFloor reqW.floor 200 "TOP_MIDDLE_BOTTOM" :=
  ⟨(claim_C1_zone_invariant reqW [carW] carW).1 (by decide),
   (claim_C1_zone_invariant reqW [carW] carW).2.1 (by decide),
   (claim_C1_zone_invariant reqW [carW] carW).2.2 (by decide)⟩

/-- Counterexample to C5 as stated: the source's line 76 is
`UP if floor > current_floor else DOWN`, so a relocation to the *current*
floor passes through `DOWN`, not the claimed `MOVING_UP`. A fresh car sits
at floor 0; `relocateTo(0)` sets the transient state to `DOWN`. -/
theorem claim_C5_counterexample :
    (ElevatorCar.init 9 "MIDDLE").transientState 0 = ElevatorState.DOWN ∧
    ((ElevatorCar.init 9 "MIDDLE").moveTo 0).current_floor = 0 ∧
    ((ElevatorCar.init 9 "MIDDLE").moveTo 0).state = ElevatorState.IDLE ∧
    ((ElevatorCar.init 9 "MIDDLE").moveTo 0).door.is_open = true ∧
    ElevatorState.DOWN ≠ ElevatorState.UP := by decide

/-- Claim C5 as amended: `moveTo` sets the transient motion state to UP
exactly when the target is strictly above the current floor and to DOWN
otherwise — so equal floors are treated as DOWN, not UP — then sets
`current_floor` to the target, ends IDLE, opens the door, and leaves the
id and zone untouched. In particular `moveTo(current_floor)` leaves the
floor unchanged, passes through DOWN, and opens the door. -/
theorem claim_C5_moveTo (e : ElevatorCar) (floor : Int) :
    e.transientState floor =
      (if e.current_floor < floor then ElevatorState.UP else ElevatorState.DOWN) ∧
    (e.moveTo floor).current_floor = floor ∧
    (e.moveTo floor).state = ElevatorState.IDLE ∧
    (e.moveTo floor).door.is_open = true ∧
    (e.moveTo floor).id = e.id ∧
    (e.moveTo floor).zone = e.zone :=
  ⟨rfl, rfl, rfl, rfl, rfl, rfl⟩

theorem getZone_tmb (floor total_floors : Int) :
    getZoneForFloor floor total_floors "TOP_MIDDLE_BOTTOM" =
      if 3 * total_floors < 4 * floor then "TOP"
      else if 4 * floor ≤ total_floors then "BOTTOM"
      else "MIDDLE" := rfl

/-- Claim C8: under the `"TOP_MIDDLE_BOTTOM"` (spec: PERCENTILE) strategy
with a positive building size, a floor is TOP iff strictly above
0.75·totalFloors (embedded exactly as `4·floor > 3·totalFloors`), BOTTOM
iff at or below 0.25·totalFloors (`4·floor ≤ totalFloors`), MIDDLE
otherwise; the 75% boundary itself is MIDDLE, the 25% boundary itself is
BOTTOM, and nonpositive floors are classified mechanically (as BOTTOM). -/
theorem claim_C8_percentile_zones (floor total_floors : Int) (h : 0 < total_floors) :
    (getZoneForFloor floor total_floors "TOP_MIDDLE_BOTTOM" = "TOP" ↔
      4 * floor > 3 * total_floors) ∧
    (getZoneForFloor floor total_floors "TOP_MIDDLE_BOTTOM" = "BOTTOM" ↔
      4 * floor ≤ total_floors) ∧
    (¬ 4 * floor > 3 * total_floors → ¬ 4 * floor ≤ total_floors →
      getZoneForFloor floor total_floors "TOP_MIDDLE_BOTTOM" = "MIDDLE") ∧
    (4 * floor = 3 * total_floors →
      getZoneForFloor floor total_floors "TOP_MIDDLE_BOTTOM" = "MIDDLE") ∧
    (4 * floor = total_floors →
      getZoneForFloor floor total_floors "TOP_MIDDLE_BOTTOM" = "BOTTOM") ∧
    (floor ≤ 0 →
      getZoneForFloor floor total_floors "TOP_MIDDLE_BOTTOM" = "BOTTOM") := by
  rw [getZone_tmb]
  refine ⟨?_, ?_, ?_, ?_, ?_, ?_⟩
  · split_ifs with h1 h2
    · exact iff_of_true rfl h1
    · exact iff_of_false (by decide) h1
    · exact iff_of_false (by decide) h1
  · split_ifs with h1 h2
    · exact iff_of_false (by decide) (by omega)
    · exact iff_of_true rfl h2
    · exact iff_of_false (by decide) h2
  · intro h1 h2
    split_ifs with g1
    · exact absurd g1 h1
    · rfl
  · intro heq
    split_ifs with g1 g2
    · exact absurd g1 (by omega)
    · exact absurd g2 (by omega)
    · rfl
  · intro heq
    split_ifs with g1 g2
    · exact absurd g1 (by omega)
    · rfl
    · exact absurd (le_of_eq heq) g2
  · intro hf
    split_ifs with g1 g2
    · exact absurd g1 (by omega)
    · rfl
    · exact absurd (show 4 * floor ≤ total_floors by omega) g2

/-- Witness for C8 in a 4-floor building: floor 3 sits exactly at the 75%
boundary and classifies MIDDLE; floor 1 sits exactly at the 25% boundary
and classifies BOTTOM. -/
theorem claim_C8_percentile_zones_witness :
    getZoneForFloor 3 4 "TOP_MIDDLE_BOTTOM" = "MIDDLE" ∧
    getZoneForFloor 1 4 "TOP_MIDDLE_BOTTOM" = "BOTTOM" :=
  ⟨(claim_C8_percentile_zones 3 4 (by decide)).2.2.2.1 (by decide),
   (claim_C8_percentile_zones 1 4 (by decide)).2.2.2.2.1 (by decide)⟩

theorem emergencyAlarm_no_match (elevators : List ElevatorCar) (elevator_id : Int)
    (h : ∀ d ∈ elevators, d.id ≠ elevator_id) :
    emergencyAlarm elevators elevator_id = elevators := by
  induction elevators with
  | nil => rfl
  | cons d ds ih =>
    have hd : d.id ≠ elevator_id := h d (List.mem_cons_self d ds)
    have hds : ∀ x ∈ ds, x.id ≠ elevator_id := fun x hx => h x (List.mem_cons_of_mem d hx)
    show (if d.id == elevator_id then d.emergencyStop else d) ::
      emergencyAlarm ds elevator_id = d :: ds
    rw [if_neg (by simpa using hd), ih hds]

/-- Claim C9: `emergencyStop` always ends with motion state IDLE whatever
the prior state; on an already-IDLE car it is a no-op; and an emergency
alarm addressed to an id no live car carries leaves the whole fleet
unchanged (total functions cannot crash). -/
theorem claim_C9_emergencyStop (e : ElevatorCar) (elevators : List ElevatorCar)
    (elevator_id : Int) :
    (e.emergencyStop).state = ElevatorState.IDLE ∧
    (e.state = ElevatorState.IDLE → e.emergencyStop = e) ∧
    ((∀ d ∈ elevators, d.id ≠ elevator_id) →
      emergencyAlarm elevators elevator_id = elevators) := by
  refine ⟨rfl, ?_, emergencyAlarm_no_match elevators elevator_id⟩
  intro hstate
  cases e
  simp_all [ElevatorCar.emergencyStop]

/-- Witness for C9: stopping a car that is moving UP yields IDLE, stopping
an idle car changes nothing, and an alarm for the unknown id 99 leaves the
one-car fleet untouched. -/
theorem claim_C9_emergencyStop_witness :
    (carUpC9.emergencyStop).state = ElevatorState.IDLE ∧
    carW.emergencyStop = carW ∧
    emergencyAlarm [carUpC9] 99 = [carUpC9] :=
  ⟨(claim_C9_emergencyStop carUpC9 [] 0).1,
   (claim_C9_emergencyStop carW [] 0).2.1 rfl,
   (claim_C9_emergencyStop carUpC9 [carUpC9] 99).2.2 (by decide)⟩

/-- Claim C10: the drain loop terminates on every finite queue and fleet:
running the while-loop with an explicit iteration budget of one more than
the queue length already reaches the loop's exit — each iteration either
dispatches the head (queue strictly shrinks) or re-appends the failed head
and breaks, so there is at most one failed iteration and never an infinite
retry within a round. -/
theorem claim_C10_drain_terminates (alg : Request → List ElevatorCar → Option ElevatorCar)
    (elevators : List ElevatorCar) (queue : List Request) :
    dispatchFuel alg (queue.length + 1) elevators queue =
      some (dispatchLoop alg elevators queue) := by
  induction queue generalizing elevators with
  | nil => rfl
  | cons request rest ih =>
    cases halg : alg request elevators with
    | some elevator =>
      simp only [List.length_cons, dispatchFuel, dispatchLoop, halg]
      exact ih _
    | none =>
      simp only [List.length_cons, dispatchFuel, dispatchLoop, halg]

/-- Counterexample to C3 as stated: with an empty fleet nothing can match,
so one drain round over the queue [raC3, rbC3] dispatches nothing — yet the
round pops the head raC3 and re-appends it at the tail, leaving the queue
[rbC3, raC3]: the relative ordering of the still-queued requests is NOT
preserved (raC3 was before rbC3, now it is after). -/
theorem claim_C3_counterexample :
    (dispatchLoop fcfsSchedule [] [raC3, rbC3]).1 = [] ∧
    (dispatchLoop fcfsSchedule [] [raC3, rbC3]).2 = [rbC3, raC3] ∧
    [rbC3, raC3] ≠ [raC3, rbC3] := by decide

/-- Claim C3 as amended: in every drain round, either every request is
dispatched (empty final queue), or the round dispatches a prefix of the
queue, fails on the next request (the scheduler returned none for it
against the then-current fleet), and stops: the requests never popped keep
their relative order at the front of the resulting queue, and the failed
head — which the round did pop — is re-appended behind them at the tail.
So a head is removed *permanently* only on a successful match, but a failed
head does not stay at the head: its relative position moves to the back. -/
theorem claim_C3_dispatch_round (alg : Request → List ElevatorCar → Option ElevatorCar)
    (elevators : List ElevatorCar) (queue : List Request) :
    (dispatchLoop alg elevators queue).2 = [] ∨
    ∃ dispatched failed rest elevators2,
      queue = dispatched ++ failed :: rest ∧
      alg failed elevators2 = none ∧
      (dispatchLoop alg elevators queue).2 = rest ++ [failed] := by
  induction queue generalizing elevators with
  | nil => exact Or.inl rfl
  | cons request rest ih =>
    cases halg : alg request elevators with
    | none =>
      refine Or.inr ⟨[], request, rest, elevators, rfl, halg, ?_⟩
      simp [dispatchLoop, halg]
    | some elevator =>
      rcases ih (elevators.replace elevator (elevator.moveTo request.floor)) with
        h | ⟨p, f, rst, es2, hq, hn, hres⟩
      · left
        simpa [dispatchLoop, halg] using h
      · right
        exact ⟨request :: p, f, rst, es2, by simp [hq], hn,
          by simpa [dispatchLoop, halg] using hres⟩

/-- Counterexample to C4 as stated: one idle BOTTOM-zone car; R1 targets a
TOP floor (no TOP car is live), R2 targets a BOTTOM floor (the car is idle
and eligible). After one drain round R2 is indeed not dispatched (the fleet
is untouched) and head-of-line blocking stopped the round — but R2 does NOT
remain queued *behind* R1: the failed R1 was re-appended at the tail, so the
queue is [r2C4, r1C4] and R1 now sits at a strictly larger index than R2. -/
theorem claim_C4_counterexample :
    fcfsSchedule r2C4 [carC4] = some carC4 ∧
    fcfsSchedule r1C4 [carC4] = none ∧
    (dispatchLoop fcfsSchedule [carC4] [r1C4, r2C4]).1 = [carC4] ∧
    (dispatchLoop fcfsSchedule [carC4] [r1C4, r2C4]).2 = [r2C4, r1C4] ∧
    ¬ List.indexOf r1C4 ((dispatchLoop fcfsSchedule [carC4] [r1C4, r2C4]).2) <
      List.indexOf r2C4 ((dispatchLoop fcfsSchedule [carC4] [r1C4, r2C4]).2) := by decide

/-- Claim C4 as amended: if the head request r1 fails to match against the
fleet, one drain round over [r1, r2] dispatches nothing (the fleet is
returned unchanged, so r2's available car never moves), r2 stays queued,
and the round's only effect on the queue is to move the failed r1 behind
r2: the result is (fleet, [r2, r1]). -/
theorem claim_C4_head_blocking (alg : Request → List ElevatorCar → Option ElevatorCar)
    (fleet : List ElevatorCar) (r1 r2 : Request) (h : alg r1 fleet = none) :
    dispatchLoop alg fleet [r1, r2] = (fleet, [r2, r1]) := by
  simp [dispatchLoop, h]

/-- Witness for C4 (amended): the concrete no-TOP-car scenario. -/
theorem claim_C4_head_blocking_witness :
    dispatchLoop fcfsSchedule [carC4] [r1C4, r2C4] = ([carC4], [r2C4, r1C4]) :=
  claim_C4_head_blocking fcfsSchedule [carC4] r1C4 r2C4 (by decide)

/-- Counterexample to C2 as stated: in the [BOTTOM, BOTTOM, MIDDLE, TOP]
fleet at floors [1, 1, 50, 90], SSTF for the request (floor 95, UP) selects
the MIDDLE car at floor 50, not the TOP car at floor 90. The configured
building size (100 floors) never reaches the scheduler: `zoneMatches` uses
its hard-coded default `total_floors = 200`, under which floor 95 is
MIDDLE, so the TOP car at floor 90 is not even eligible. -/
theorem claim_C2_counterexample :
    (sstfSchedule req95 fleet100).map (fun e => e.zone) = some "MIDDLE" ∧
    (sstfSchedule req95 fleet100).map (fun e => e.current_floor) = some 50 ∧
    sstfSchedule req95 fleet100 ≠ some carT3 := by decide

/-- Claim C2 as amended: submitting (floor 95, UP) under SSTF to the
scenario fleet selects the MIDDLE-zoned car at floor 50 (because the
zone-match check runs at the hard-coded default of 200 total floors, which
classifies floor 95 as MIDDLE — under the building's real 100 floors it
would be TOP), and that car relocates to floor 95. -/
theorem claim_C2_scenario :
    sstfSchedule req95 fleet100 = some carM2 ∧
    dispatchLoop sstfSchedule fleet100 [req95] =
      ([carB0, carB1,
        { carM2 with current_floor := 95, door := { is_open := true } }, carT3], []) ∧
    getZoneForFloor 95 200 "TOP_MIDDLE_BOTTOM" = "MIDDLE" ∧
    getZoneForFloor 95 100 "TOP_MIDDLE_BOTTOM" = "TOP" := by decide

/-- Claim C7: SSTF returns no car iff no car is both IDLE and zone-eligible
for the request's floor; a returned car is a fleet member, IDLE and
zone-eligible, of minimal `abs(current_floor - floor)` distance among all
such cars, and it is the *first* such minimizer in fleet order (everything
strictly before it in the filtered fleet — whose order is the fleet order —
has strictly larger distance). In particular, with eligible cars at floors
3, 7 and 12 and a request for floor 9, the car at floor 7 is selected. -/
theorem claim_C7_sstf (request : Request) (fleet : List ElevatorCar) :
    (sstfSchedule request fleet = none ↔
      ∀ e ∈ fleet, ¬(e.state = ElevatorState.IDLE ∧
        e.zoneMatches request.floor 200 "TOP_MIDDLE_BOTTOM" = true)) ∧
    (∀ c, sstfSchedule request fleet = some c →
      c ∈ fleet ∧ c.state = ElevatorState.IDLE ∧
      c.zoneMatches request.floor 200 "TOP_MIDDLE_BOTTOM" = true ∧
      (∀ e ∈ fleet, e.state = ElevatorState.IDLE →
        e.zoneMatches request.floor 200 "TOP_MIDDLE_BOTTOM" = true →
        (c.current_floor - request.floor).natAbs ≤ (e.current_floor - request.floor).natAbs) ∧
      (∃ l1 l2, fleet.filter (sstfEligible request) = l1 ++ c :: l2 ∧
        ∀ e ∈ l1,
          (c.current_floor - request.floor).natAbs <
            (e.current_floor - request.floor).natAbs)) ∧
    (sstfSchedule req379 fleet379).map (fun e => e.current_floor) = some 7 := by
  refine ⟨?_, ?_, by decide⟩
  · rw [sstfSchedule_eq, filterMin_eq_none]
    constructor
    · intro hall e he hc
      exact hall e he ((sstfEligible_iff request e).mpr hc)
    · intro hall e he hel
      exact hall e he ((sstfEligible_iff request e).mp hel)
  · intro c h
    rw [sstfSchedule_eq] at h
    obtain ⟨hmem, hel, hmin, hsplit⟩ := filterMin_eq_some (sstfEligible request)
      (fun e => (e.current_floor - request.floor).natAbs) fleet c h
    obtain ⟨hstate, hzone⟩ := (sstfEligible_iff request c).mp hel
    exact ⟨hmem, hstate, hzone,
      fun e he h1 h2 => hmin e he ((sstfEligible_iff request e).mpr ⟨h1, h2⟩), hsplit⟩

/-- Witness for C7: in the 3/7/12 example the scheduler's pick (the car at
floor 7) is a fleet member, IDLE and zone-eligible for floor 9. -/
theorem claim_C7_sstf_witness :
    car379b ∈ fleet379 ∧ car379b.state = ElevatorState.IDLE ∧
    car379b.zoneMatches req379.floor 200 "TOP_MIDDLE_BOTTOM" = true := by
  have h := (claim_C7_sstf req379 fleet379).2.1 car379b (by decide)
  exact ⟨h.1, h.2.1, h.2.2.1⟩

/-- Claim C6: SCAN returns no car iff no car is eligible, where eligible
means zone-eligible for the request's floor AND (IDLE, or moving in the
request's direction without having passed the request floor:
`current_floor ≤ floor` going UP, `current_floor ≥ floor` going DOWN); a
returned car is an eligible fleet member of minimal
`abs(current_floor - floor)` distance among the eligible cars, and the
first such minimizer in fleet order (the filtered fleet keeps fleet
order). -/
theorem claim_C6_scan (request : Request) (fleet : List ElevatorCar) :
    (scanSchedule request fleet = none ↔
      ∀ e ∈ fleet, ¬(e.zoneMatches request.floor 200 "TOP_MIDDLE_BOTTOM" = true ∧
        (e.state = ElevatorState.IDLE ∨
          (e.state = request.direction ∧
            ((request.direction = ElevatorState.UP ∧ e.current_floor ≤ request.floor) ∨
             (request.direction = ElevatorState.DOWN ∧ request.floor ≤ e.current_floor)))))) ∧
    (∀ c, scanSchedule request fleet = some c →
      c ∈ fleet ∧
      c.zoneMatches request.floor 200 "TOP_MIDDLE_BOTTOM" = true ∧
      (c.state = ElevatorState.IDLE ∨
        (c.state = request.direction ∧
          ((request.direction = ElevatorState.UP ∧ c.current_floor ≤ request.floor) ∨
           (request.direction = ElevatorState.DOWN ∧ request.floor ≤ c.current_floor)))) ∧
      (∀ e ∈ fleet, scanEligible request e = true →
        (c.current_floor - request.floor).natAbs ≤ (e.current_floor - request.floor).natAbs) ∧
      (∃ l1 l2, fleet.filter (scanEligible request) = l1 ++ c :: l2 ∧
        ∀ e ∈ l1,
          (c.current_floor - request.floor).natAbs <
            (e.current_floor - request.floor).natAbs)) := by
  constructor
  · rw [scanSchedule_eq, filterMin_eq_none]
    constructor
    · intro hall e he hc
      exact hall e he ((scanEligible_iff request e).mpr hc)
    · intro hall e he hel
      exact hall e he ((scanEligible_iff request e).mp hel)
  · intro c h
    rw [scanSchedule_eq] at h
    obtain ⟨hmem, hel, hmin, hsplit⟩ := filterMin_eq_some (scanEligible request)
      (fun e => (e.current_floor - request.floor).natAbs) fleet c h
    obtain ⟨hzone, hadm⟩ := (scanEligible_iff request c).mp hel
    exact ⟨hmem, hzone, hadm, hmin, hsplit⟩

/-- Witness for C6: the spec's SCAN example — a BOTTOM-zone car moving UP
at floor 5 is picked for the request (floor 8, UP), and the theorem yields
its membership, zone eligibility and admission (it has not passed floor 8). -/
theorem claim_C6_scan_witness :
    carScanW ∈ [carScanW] ∧
    carScanW.zoneMatches reqScanW.floor 200 "TOP_MIDDLE_BOTTOM" = true ∧
    (carScanW.state = ElevatorState.IDLE ∨
      (carScanW.state = reqScanW.direction ∧
        ((reqScanW.direction = ElevatorState.UP ∧ carScanW.current_floor ≤ reqScanW.floor) ∨
         (reqScanW.direction = ElevatorState.DOWN ∧
           reqScanW.floor ≤ carScanW.current_floor)))) := by
  have h := (claim_C6_scan reqScanW [carScanW]).2 carScanW (by decide)
  exact ⟨h.1, h.2.1, h.2.2.1⟩
